import Mathlib

/-!
Verification development for the VTOL quick-scan autonomy module
(`src/quick_scan_autonomy.py`).

The Python source is shallowly embedded:

* JSON values and the ground-station callback `xbee_callback`
  (lines 29-66) become a computable state-transition function over an
  explicit `MState`, with Python `KeyError` handling made explicit.
* The waypoint planner `generateWaypoints` (lines 69-118) becomes a
  real-valued function.  The `while` loop is embedded twice: once as a
  step-indexed (fuel) recursion `spiralAux` that is a direct transcription
  of the loop, and once in closed form (`generateWaypoints`), with a
  theorem (`generateWaypointsFuel_eq`) proving the two agree whenever the
  loop terminates.  The geodetic conversion functions live in
  `conversions.py`, which is outside the embedded module; they are taken
  as parameters (`Geo3`, `Geo6`), since none of the verified properties
  depend on their values.
* `quick_scan_adds_mission` (lines 120-152) becomes a function from the
  LLA waypoint list to the uploaded command list (`none` models the
  `IndexError` raised by `lla_waypoint_list[-1]` on an empty list).
* The airborne part of `quick_scan_autonomy` (lines 190-215) becomes a
  trace semantics: the `commands.next` pointer of the vehicle and the shared
  `pause_mission` / `stop_mission` flags are modelled as sequences
  sampled once per loop iteration, and every interaction with the
  vehicle is recorded as an `Event`.
-/

namespace VTOL

/-! ### JSON values and mission state (source lines 14-66) -/

/-- A decoded JSON value, as produced by `json.loads`.  Objects are
association lists of string keys. -/
inductive JVal where
  | num (q : ℚ)
  | str (s : String)
  | arr (elems : List JVal)
  | obj (fields : List (String × JVal))

/-- Embedding of `SearchArea.__init__` (source lines 17-21): the three constructor
arguments are stored as given, with no validation, so the fields keep the
raw JSON values. -/
structure SearchAreaMsg where
  center : JVal
  rad1 : JVal
  rad2 : JVal

/-- The process-wide mission state touched by `xbee_callback`: the three
flags living in the `autonomy` module and the module-global
`search_area` (source lines 14, 31-34). -/
structure MState where
  start_mission : Bool
  pause_mission : Bool
  stop_mission : Bool
  search_area : Option SearchAreaMsg

/-- A reply sent back to the ground station: `acknowledge` or `bad_msg`
(both imported from `autonomy`). -/
inductive Reply where
  | ack (msgType : String)
  | bad (text : String)

/-- Outcome of one callback invocation: a normal return carrying the new
mission state and the replies emitted, or an uncaught Python exception
(e.g. a `TypeError` from subscripting a non-dict), which leaves the state
as it was. -/
inductive CbResult where
  | ret (st : MState) (replies : List Reply)
  | exc (st : MState)

/-- Embedding of `xbee_callback` (source lines 30-66) for an already-parsed JSON
object `msg`.  Each `msg[k]` subscript is a `List.lookup`; a failed
lookup is the `KeyError` caught on line 65, which produces the
`bad_msg` reply of line 66 naming the missing key.  Subscripting a
non-object (possible only when `searchArea` is present but not a JSON
object) raises an uncaught `TypeError`. -/
def xbee_callback (msg : List (String × JVal)) (st : MState) : CbResult :=
  match List.lookup "type" msg with
  | none => .ret st [.bad "Missing \x27type\x27 key"]
  | some (JVal.str "start") =>
    match List.lookup "searchArea" msg with
    | none => .ret st [.bad "Missing \x27searchArea\x27 key"]
    | some (JVal.obj area) =>
      match List.lookup "center" area with
      | none => .ret st [.bad "Missing \x27center\x27 key"]
      | some c =>
        match List.lookup "rad1" area with
        | none => .ret st [.bad "Missing \x27rad1\x27 key"]
        | some r1 =>
          match List.lookup "rad2" area with
          | none => .ret st [.bad "Missing \x27rad2\x27 key"]
          | some r2 =>
            .ret { st with search_area := some ⟨c, r1, r2⟩, start_mission := true }
              [.ack "start"]
    | some _ => .exc st
  | some (JVal.str "pause") => .ret { st with pause_mission := true } [.ack "pause"]
  | some (JVal.str "resume") => .ret { st with pause_mission := false } [.ack "resume"]
  | some (JVal.str "stop") => .ret { st with stop_mission := true } [.ack "stop"]
  | some (JVal.str s) => .ret st [.bad ("Unknown message type: \x27" ++ s ++ "\x27")]
  | some _ => .exc st

/-! ### Waypoint planner (source lines 69-118) -/

/-- A triple of reals: an ECEF point, an NED offset, or an LLA position. -/
abbrev Point3 : Type := ℝ × ℝ × ℝ

/-- Type of `geodetic2ecef lat lon alt` from `conversions.py`. -/
abbrev Geo3 : Type := ℝ → ℝ → ℝ → Point3

/-- Type of `ecef2ned x y z lat lon alt` / `ned2geodetic n e d lat lon alt`
from `conversions.py`. -/
abbrev Geo6 : Type := ℝ → ℝ → ℝ → ℝ → ℝ → ℝ → Point3

/-- The configuration fields read by `generateWaypoints`:
`configs["altitude"]` and `configs["d_theta_rad"]`. -/
structure Configs where
  altitude : ℝ
  d_theta_rad : ℝ

/-- The numeric search area consumed by the planner. -/
structure SearchArea where
  center : ℝ × ℝ
  rad1 : ℝ
  rad2 : ℝ

/-- The raspicam horizontal FOV `math.radians(62.2)` (source line 88). -/
noncomputable def fovH : ℝ := 62.2 * (Real.pi / 180)

/-- The raspicam vertical FOV `math.radians(48.8)` (source line 89). -/
noncomputable def fovV : ℝ := 48.8 * (Real.pi / 180)

/-- Bounding box height `boxH = 2 * altitude / math.tan(fovH / 2)` (source line 90). -/
noncomputable def boxH (altitude : ℝ) : ℝ := 2 * altitude / Real.tan (fovH / 2)

/-- Bounding box width `boxV = 2 * altitude / math.tan(fovV / 2)` (source line 91). -/
noncomputable def boxV (altitude : ℝ) : ℝ := 2 * altitude / Real.tan (fovV / 2)

/-- Coil spacing `b = (0.75 * boxH) / (2 * math.pi)` (source line 93). -/
noncomputable def coilSpacing (altitude : ℝ) : ℝ :=
  (0.75 * boxH altitude) / (2 * Real.pi)

/-- One iteration body of the spiral loop (source lines 99-113) at angle
`theta`: computes `away`, `around`, the ECEF point `(x, y, centerZ)`, and
its NED and LLA conversions; returns the pair appended to the two
waypoint lists. -/
noncomputable def spiralPoint (g2 g3 : Geo6) (cX cY cZ lat lon altitude b rot : ℝ)
    (theta : ℝ) : Point3 × Point3 :=
  let away := b * theta
  let around := theta + rot
  let x := cX + Real.cos around * away
  let y := cY + Real.sin around * away
  let ned := g2 x y cZ lat lon altitude
  let lla := g3 ned.1 ned.2.1 ned.2.2 lat lon altitude
  (ned, lla)

/-- Step-indexed semantics of the `while theta <= maxTheta` loop
(source lines 97-116): `none` means the step budget ran out with the
loop still running (in particular, a loop that never exits returns
`none` for every budget). -/
noncomputable def spiralAux (dth m : ℝ) (pt : ℝ → Point3 × Point3) :
    ℕ → ℝ → Option (List (Point3 × Point3))
  | 0, _ => none
  | fuel + 1, theta =>
    if theta ≤ m then
      Option.map (fun rest => pt theta :: rest) (spiralAux dth m pt fuel (theta + dth))
    else
      some []

/-- Embedding of `generateWaypoints` (source lines 70-118) under the step-indexed loop
semantics.  The geodetic conversions `g1 = geodetic2ecef`,
`g2 = ecef2ned`, `g3 = ned2geodetic` are parameters (they live in
`conversions.py`, outside this module). -/
noncomputable def generateWaypointsFuel (g1 : Geo3) (g2 g3 : Geo6) (fuel : ℕ)
    (configs : Configs) (search_area : SearchArea) :
    Option (List Point3 × List Point3) :=
  let altitude := configs.altitude
  let lat := search_area.center.1
  let lon := search_area.center.2
  let c := g1 lat lon altitude
  let ned0 := g2 c.1 c.2.1 c.2.2 lat lon altitude
  let b := coilSpacing altitude
  let rot := -(Real.pi / 2)
  let maxTheta := search_area.rad2 / b
  Option.map
    (fun pts => (ned0 :: pts.map Prod.fst, (lat, lon, altitude) :: pts.map Prod.snd))
    (spiralAux configs.d_theta_rad maxTheta
      (spiralPoint g2 g3 c.1 c.2.1 c.2.2 lat lon altitude b rot) fuel 0)

/-- Number of iterations the spiral loop executes when it terminates:
`theta` takes the values `0, dth, 2·dth, …` while `theta ≤ m`. -/
noncomputable def loopCount (m dth : ℝ) : ℕ :=
  if m < 0 then 0 else (⌊m / dth⌋).toNat + 1

/-- Closed form of `generateWaypoints` (source lines 70-118), valid
whenever the loop terminates; `generateWaypointsFuel_eq` below proves it
agrees with the step-indexed transcription. -/
noncomputable def generateWaypoints (g1 : Geo3) (g2 g3 : Geo6)
    (configs : Configs) (search_area : SearchArea) :
    List Point3 × List Point3 :=
  let altitude := configs.altitude
  let lat := search_area.center.1
  let lon := search_area.center.2
  let c := g1 lat lon altitude
  let ned0 := g2 c.1 c.2.1 c.2.2 lat lon altitude
  let b := coilSpacing altitude
  let rot := -(Real.pi / 2)
  let maxTheta := search_area.rad2 / b
  let pts := (List.range (loopCount maxTheta configs.d_theta_rad)).map
    (fun (i : ℕ) => spiralPoint g2 g3 c.1 c.2.1 c.2.2 lat lon altitude b rot
      ((i : ℝ) * configs.d_theta_rad))
  (ned0 :: pts.map Prod.fst, (lat, lon, altitude) :: pts.map Prod.snd)

/-! ### Mission upload (source lines 120-152) -/

/-- MAVLink constant `mavutil.mavlink.MAV_FRAME_GLOBAL_RELATIVE_ALT`. -/
def MAV_FRAME_GLOBAL_RELATIVE_ALT : ℕ := 3

/-- MAVLink constant `mavutil.mavlink.MAV_CMD_NAV_TAKEOFF`. -/
def MAV_CMD_NAV_TAKEOFF : ℕ := 22

/-- MAVLink constant `mavutil.mavlink.MAV_CMD_NAV_WAYPOINT`. -/
def MAV_CMD_NAV_WAYPOINT : ℕ := 16

/-- A dronekit `Command(target_system, target_component, seq, frame,
command, current, autocontinue, param1, param2, param3, param4, x, y, z)`. -/
structure Cmd where
  target_system : ℕ
  target_component : ℕ
  seq : ℕ
  frame : ℕ
  command : ℕ
  current : ℕ
  autocontinue : ℕ
  param1 : ℝ
  param2 : ℝ
  param3 : ℝ
  param4 : ℝ
  x : ℝ
  y : ℝ
  z : ℝ

/-- The takeoff command added on source line 142:
`Command(0,0,0, MAV_FRAME_GLOBAL_RELATIVE_ALT, MAV_CMD_NAV_TAKEOFF, 0,0,0,0,0,0, 0,0,10)`. -/
def takeoffCommand : Cmd :=
  ⟨0, 0, 0, MAV_FRAME_GLOBAL_RELATIVE_ALT, MAV_CMD_NAV_TAKEOFF, 0, 0, 0, 0, 0, 0, 0, 0, 10⟩

/-- The per-waypoint navigation command added on source lines 147 and 150:
`Command(0,0,0, MAV_FRAME_GLOBAL_RELATIVE_ALT, MAV_CMD_NAV_WAYPOINT, 0,0,0,0,0,0, lat, lon, 12)`. -/
def navCommand (la lo : ℝ) : Cmd :=
  ⟨0, 0, 0, MAV_FRAME_GLOBAL_RELATIVE_ALT, MAV_CMD_NAV_WAYPOINT, 0, 0, 0, 0, 0, 0, la, lo, 12⟩

/-- Embedding of `quick_scan_adds_mission` (source lines 120-152): the command list
built and uploaded from the LLA waypoint list.  On an empty list the
expression `lla_waypoint_list[-1]` on line 150 raises `IndexError`
before `cmds.upload()` runs, so nothing is uploaded: that is the `none`
case. -/
def quick_scan_adds_mission (lla_waypoint_list : List Point3) : Option (List Cmd) :=
  match lla_waypoint_list.getLast? with
  | none => none
  | some lastP =>
    some ([takeoffCommand]
      ++ lla_waypoint_list.map (fun point => navCommand point.1 point.2.1)
      ++ [navCommand lastP.1 lastP.2.1])

/-! ### Mission supervisor, airborne section (source lines 190-215)

The vehicle and the concurrently-mutated mission flags are modelled as
sampled sequences: `next i` is the value `vehicle.commands.next` reads
at the `i`-th loop test, and `pausef i` / `stopf i` are the values of
`autonomy.pause_mission` / `autonomy.stop_mission` read during the
`i`-th iteration body.  Every interaction with the vehicle is recorded
as an `Event`. -/

/-- A vehicle interaction performed by the supervisor. -/
inductive Event where
  | uploadMission
  | takeoffCmd (mode : String) (altitude : ℝ)
  | setMode (mode : String)
  | printLocation
  | landCmd

/-- Result of the monitor loop (source lines 202-211): the iteration at
which it exited, whether it exited through `break` (stop) rather than
the `while` test, the final value of the `configs["flight_mode"]`
entry, every successive value assigned to that entry inside the loop,
and the vehicle interactions performed inside the loop. -/
structure LoopResult where
  exitIter : ℕ
  stopped : Bool
  cfgMode : String
  modeWrites : List String
  events : List Event

/-- The monitor loop `while vehicle.commands.next != vehicle.commands.count`
(source lines 202-211), step-indexed: `none` means the step budget ran
out.  Each iteration first tests the `while` condition, then assigns
`configs["flight_mode"]` from the pause flag (lines 204-207), then
breaks if the stop flag is set (lines 208-209), then prints the vehicle
location and sleeps (lines 210-211). -/
def monitorLoop (next : ℕ → ℕ) (count : ℕ) (pausef stopf : ℕ → Bool)
    (cfgMode : String) : ℕ → ℕ → Option LoopResult
  | 0, _ => none
  | fuel + 1, i =>
    if next i = count then some ⟨i, false, cfgMode, [], []⟩
    else
      let m := if pausef i then "HOVER" else "AUTO"
      if stopf i then some ⟨i, true, m, [m], []⟩
      else
        match monitorLoop next count pausef stopf m fuel (i + 1) with
        | none => none
        | some r =>
          some ⟨r.exitIter, r.stopped, r.cfgMode, m :: r.modeWrites,
            Event.printLocation :: r.events⟩

/-- Result of the airborne section of `quick_scan_autonomy`: the ordered
vehicle interactions, the uncaught exception message if one was raised,
and the monitor-loop result when the loop ran. -/
structure RunResult where
  events : List Event
  exc : Option String
  loopRes : Option LoopResult

/-- The airborne section of `quick_scan_autonomy` (source lines 190-215):
upload the mission (line 193), command takeoff with the configured
flight mode and altitude (line 196), set the vehicle mode to the
configured flight mode (line 198); then, if the configured mode is
`"AUTO"`, run the monitor loop and finally land (line 215); otherwise
raise `Exception("Guided mode not supported")` (line 213), which skips
`land`. -/
def quick_scan_autonomy (flight_mode : String) (altitude : ℝ) (next : ℕ → ℕ)
    (count : ℕ) (pausef stopf : ℕ → Bool) (fuel : ℕ) : Option RunResult :=
  let pre : List Event :=
    [Event.uploadMission, Event.takeoffCmd flight_mode altitude, Event.setMode flight_mode]
  if flight_mode = "AUTO" then
    match monitorLoop next count pausef stopf flight_mode fuel 0 with
    | none => none
    | some r => some ⟨pre ++ r.events ++ [Event.landCmd], none, some r⟩
  else
    some ⟨pre, some "Guided mode not supported", none⟩

/-- The flight-mode string assigned by the loop body (source lines 204-207). -/
def modeOf (pausef : ℕ → Bool) (i : ℕ) : String :=
  if pausef i then "HOVER" else "AUTO"

/-- Holds exactly on a `landCmd` event. -/
def isLand : Event → Bool
  | Event.landCmd => true
  | _ => false

/-- Holds exactly on a vehicle flight-mode request for `"HOVER"`. -/
def isHoverRequest : Event → Bool
  | Event.setMode m => m = "HOVER"
  | _ => false

/-- Holds exactly on a mission upload event. -/
def isUpload : Event → Bool
  | Event.uploadMission => true
  | _ => false

/-! ### Helper definitions for the proofs -/

/-- Remaining iterations of the spiral loop when entered at angle `theta`
(for a positive step `dth`). -/
noncomputable def spiralCount (m dth theta : ℝ) : ℕ :=
  if theta ≤ m then (⌊(m - theta) / dth⌋).toNat + 1 else 0

/-- Closed form of the monitor-loop result when the loop exits at
iteration `i0`, having been entered at iteration `s` with the
flight-mode entry of the configuration equal to `c`. -/
def expectedLoop (next : ℕ → ℕ) (count : ℕ) (pausef : ℕ → Bool) (c : String)
    (s i0 : ℕ) : LoopResult :=
  if next i0 = count then
    ⟨i0, false, if i0 = s then c else modeOf pausef (i0 - 1),
      (List.range' s (i0 - s)).map (modeOf pausef),
      List.replicate (i0 - s) Event.printLocation⟩
  else
    ⟨i0, true, modeOf pausef i0,
      (List.range' s (i0 - s)).map (modeOf pausef) ++ [modeOf pausef i0],
      List.replicate (i0 - s) Event.printLocation⟩

/-- Trivial geodetic stand-ins used for concrete evaluations; none of the
verified properties depend on the values of the geodetic library. -/
def g1id : Geo3 := fun lat lon alt => (lat, lon, alt)

/-- Trivial `ecef2ned` stand-in for concrete evaluations. -/
def g2id : Geo6 := fun x y z _ _ _ => (x, y, z)

/-- Trivial `ned2geodetic` stand-in for concrete evaluations. -/
def g3id : Geo6 := fun n e d _ _ _ => (n, e, d)

/-- Concrete configuration: altitude 10 m, angular step π/8 rad. -/
noncomputable def cfgPi8 : Configs := ⟨10, Real.pi / 8⟩

/-- Concrete configuration with a non-positive angular step
(`d_theta_rad = 0`). -/
noncomputable def cfgStuck : Configs := ⟨10, 0⟩

/-- Concrete search area with outer radius `rad2 = 0`. -/
noncomputable def saZero : SearchArea := ⟨(0, 0), 5, 0⟩

/-- Concrete search area with negative outer radius `rad2 = -1`. -/
noncomputable def saNeg : SearchArea := ⟨(0, 0), 5, -1⟩

/-- Concrete search area with outer radius `rad2 = 30`. -/
noncomputable def saR30 : SearchArea := ⟨(0, 0), 5, 30⟩

/-- Length of the LLA list of a step-indexed planner result. -/
noncomputable def fuelLLALen (o : Option (List Point3 × List Point3)) : Option ℕ :=
  o.map (fun p => p.2.length)

/-- The event list of a supervisor run. -/
def runEvents (o : Option RunResult) : Option (List Event) :=
  o.map RunResult.events

/-- The exception outcome of a supervisor run. -/
def runExc (o : Option RunResult) : Option (Option String) :=
  o.map RunResult.exc

/-- Whether any event of a supervisor run is a vehicle request for the
`"HOVER"` flight mode. -/
def runHoverRequested (o : Option RunResult) : Option Bool :=
  o.map (fun r => r.events.any isHoverRequest)

/-- The final value of the flight-mode entry of the configuration after the
monitor loop of a supervisor run. -/
def runFinalCfgMode (o : Option RunResult) : Option (Option String) :=
  o.map (fun r => r.loopRes.map LoopResult.cfgMode)

/-- Initial mission state: all flags false, no search area. -/
def st0 : MState := ⟨false, false, false, none⟩

/-- A start message with no `searchArea` field. -/
def msg0 : List (String × JVal) := [("type", JVal.str "start")]

/-- The identity index sequence (the vehicle advances one command per
loop iteration). -/
def idSeq : ℕ → ℕ := fun i => i

/-- The constantly-true flag sequence. -/
def constTrue : ℕ → Bool := fun _ => true

/-- The constantly-false flag sequence. -/
def constFalse : ℕ → Bool := fun _ => false

/-! ### Shared lemmas about the planner loop -/

theorem spiralCount_zero (m dth : ℝ) : spiralCount m dth 0 = loopCount m dth := by
  unfold spiralCount loopCount
  by_cases h : (0 : ℝ) ≤ m
  · rw [if_pos h, if_neg (not_lt.mpr h), sub_zero]
  · rw [if_neg h, if_pos (not_le.mp h)]

theorem spiralCount_step (m dth theta : ℝ) (hd : 0 < dth) (hθ : theta ≤ m) :
    spiralCount m dth theta = spiralCount m dth (theta + dth) + 1 := by
  unfold spiralCount
  rw [if_pos hθ]
  by_cases hθ2 : theta + dth ≤ m
  · rw [if_pos hθ2]
    have hdiv : (m - (theta + dth)) / dth = (m - theta) / dth - 1 := by
      field_simp
      ring
    have hfloor : ⌊(m - (theta + dth)) / dth⌋ = ⌊(m - theta) / dth⌋ - 1 := by
      rw [hdiv]
      exact_mod_cast Int.floor_sub_int ((m - theta) / dth) 1
    have hone : (1 : ℝ) ≤ (m - theta) / dth := (one_le_div hd).mpr (by linarith)
    have h1 : 1 ≤ ⌊(m - theta) / dth⌋ := by
      exact_mod_cast Int.le_floor.mpr (by exact_mod_cast hone)
    rw [hfloor]
    omega
  · rw [if_neg hθ2]
    have h0 : (0 : ℝ) ≤ (m - theta) / dth := div_nonneg (by linarith) hd.le
    have h1 : (m - theta) / dth < 1 := (div_lt_one hd).mpr (by linarith)
    have : ⌊(m - theta) / dth⌋ = 0 := Int.floor_eq_zero_iff.mpr ⟨h0, h1⟩
    rw [this]
    rfl

theorem spiralAux_eq (dth m : ℝ) (pt : ℝ → Point3 × Point3) (hd : 0 < dth) :
    ∀ fuel theta, spiralCount m dth theta < fuel →
      spiralAux dth m pt fuel theta =
        some ((List.range (spiralCount m dth theta)).map
          (fun (i : ℕ) => pt (theta + (i : ℝ) * dth))) := by
  intro fuel
  induction fuel with
  | zero => intro theta h; exact absurd h (Nat.not_lt_zero _)
  | succ fuel ih =>
    intro theta h
    by_cases hθ : theta ≤ m
    · have hstep := spiralCount_step m dth theta hd hθ
      simp only [spiralAux, if_pos hθ]
      rw [ih (theta + dth) (by omega)]
      simp only [Option.map_some']
      rw [hstep, List.range_succ_eq_map, List.map_cons, List.map_map]
      refine congrArg some (congrArg₂ List.cons ?_ ?_)
      · congr 1
        push_cast
        ring
      · refine List.map_congr_left (fun i _ => ?_)
        simp only [Function.comp_apply]
        congr 1
        push_cast
        ring
    · have hc : spiralCount m dth theta = 0 := by unfold spiralCount; rw [if_neg hθ]
      simp only [spiralAux, if_neg hθ, hc, List.range_zero, List.map_nil]

theorem spiralAux_none (dth m : ℝ) (pt : ℝ → Point3 × Point3)
    (hd : dth ≤ 0) : ∀ fuel theta, theta ≤ m → spiralAux dth m pt fuel theta = none := by
  intro fuel
  induction fuel with
  | zero => intro theta _; rfl
  | succ fuel ih =>
    intro theta hθ
    simp only [spiralAux, if_pos hθ]
    rw [ih (theta + dth) (by linarith)]
    rfl

/-- When the angular step is positive the step-indexed loop terminates
(once given enough fuel) and produces exactly the closed-form waypoint
lists of `generateWaypoints`. -/
theorem generateWaypointsFuel_eq (g1 : Geo3) (g2 g3 : Geo6) (fuel : ℕ)
    (configs : Configs) (sa : SearchArea)
    (hd : 0 < configs.d_theta_rad)
    (hfuel : loopCount (sa.rad2 / coilSpacing configs.altitude) configs.d_theta_rad < fuel) :
    generateWaypointsFuel g1 g2 g3 fuel configs sa =
      some (generateWaypoints g1 g2 g3 configs sa) := by
  simp only [generateWaypointsFuel, generateWaypoints]
  rw [spiralAux_eq _ _ _ hd fuel 0 (by rw [spiralCount_zero]; exact hfuel)]
  simp only [Option.map_some', spiralCount_zero, zero_add]

/-! ### Shared facts about the field-of-view constants -/

theorem tan_fovH_half_pos : 0 < Real.tan (fovH / 2) := by
  have hπ := Real.pi_pos
  apply Real.tan_pos_of_pos_of_lt_pi_div_two
  · unfold fovH; linarith
  · unfold fovH; linarith

theorem tan_fovH_half_lt_one : Real.tan (fovH / 2) < 1 := by
  have hπ := Real.pi_pos
  have h := Real.tan_lt_tan_of_nonneg_of_lt_pi_div_two
    (x := fovH / 2) (y := Real.pi / 4)
    (by unfold fovH; linarith) (by linarith) (by unfold fovH; linarith)
  rwa [Real.tan_pi_div_four] at h

theorem coilSpacing_pos (altitude : ℝ) (h : 0 < altitude) : 0 < coilSpacing altitude := by
  unfold coilSpacing boxH
  have h1 := tan_fovH_half_pos
  have hπ := Real.pi_pos
  exact div_pos (by positivity) (by linarith)

/-! ### Shared lemmas about the monitor loop -/

theorem monitorLoop_eq (next : ℕ → ℕ) (count : ℕ) (pausef stopf : ℕ → Bool) (i0 : ℕ)
    (hexit : next i0 = count ∨ stopf i0 = true) :
    ∀ (fuel s : ℕ) (c : String), s ≤ i0 →
      (∀ j, s ≤ j → j < i0 → next j ≠ count ∧ stopf j = false) →
      i0 - s < fuel →
      monitorLoop next count pausef stopf c fuel s =
        some (expectedLoop next count pausef c s i0) := by
  intro fuel
  induction fuel with
  | zero => intro s c _ _ h; exact absurd h (Nat.not_lt_zero _)
  | succ fuel ih =>
    intro s c hs hmin hfuel
    by_cases hsi : s = i0
    · subst hsi
      by_cases hn : next s = count
      · simp only [monitorLoop, expectedLoop, if_pos hn, Nat.sub_self, eq_self_iff_true,
          if_true, List.range'_zero, List.map_nil, List.replicate_zero]
      · have hst : stopf s = true := hexit.resolve_left hn
        simp only [monitorLoop, expectedLoop, if_neg hn, hst, eq_self_iff_true, if_true,
          Nat.sub_self, List.range'_zero, List.map_nil, List.replicate_zero,
          List.nil_append, modeOf]
    · have hlt : s < i0 := Nat.lt_of_le_of_ne hs hsi
      obtain ⟨hn, hstp⟩ := hmin s le_rfl hlt
      simp only [monitorLoop, if_neg hn, hstp]
      rw [if_neg (by simp)]
      rw [ih (s + 1) (if pausef s then "HOVER" else "AUTO") hlt
        (fun j hj1 hj2 => hmin j (by omega) hj2) (by omega)]
      have hsub : i0 - s = (i0 - (s + 1)) + 1 := by omega
      by_cases hc : next i0 = count
      · simp only [expectedLoop, if_pos hc, hsub, List.range'_succ, List.replicate_succ,
          List.map_cons, Option.some.injEq, LoopResult.mk.injEq, modeOf,
          true_and, and_true]
        by_cases h1 : i0 = s + 1
        · rw [if_pos h1, if_neg (Nat.ne_of_gt hlt)]
          have h2 : i0 - 1 = s := by omega
          rw [h2]
        · rw [if_neg h1, if_neg (Nat.ne_of_gt hlt)]
      · simp only [expectedLoop, if_neg hc, hsub, List.range'_succ, List.replicate_succ,
          List.map_cons, List.cons_append, Option.some.injEq, modeOf]

/-! ### Claim C1 -/

/-- C1 counterexample: for a search area with `rad2 = 0` and a positive
angular step (π/8), the planner returns a trajectory with TWO waypoints
(the center plus the θ = 0 spiral point), not one as the claim states;
the step-indexed loop semantics agrees. -/
theorem C1_counterexample :
    (generateWaypoints g1id g2id g3id cfgPi8 saZero).2.length = 2 ∧
    (generateWaypoints g1id g2id g3id cfgPi8 saZero).2.length ≠ 1 ∧
    fuelLLALen (generateWaypointsFuel g1id g2id g3id 3 cfgPi8 saZero) = some 2 := by
  have hd : (0 : ℝ) < cfgPi8.d_theta_rad := by
    show (0 : ℝ) < Real.pi / 8
    positivity
  have hm : saZero.rad2 / coilSpacing cfgPi8.altitude = 0 := by
    show (0 : ℝ) / coilSpacing cfgPi8.altitude = 0
    rw [zero_div]
  have hlc : loopCount (saZero.rad2 / coilSpacing cfgPi8.altitude) cfgPi8.d_theta_rad = 1 := by
    rw [hm]
    unfold loopCount
    rw [if_neg (lt_irrefl 0), zero_div, Int.floor_zero]
    rfl
  have hlen : (generateWaypoints g1id g2id g3id cfgPi8 saZero).2.length = 2 := by
    simp only [generateWaypoints, hlc, List.length_cons, List.length_map, List.length_range]
  refine ⟨hlen, by rw [hlen]; omega, ?_⟩
  rw [fuelLLALen, generateWaypointsFuel_eq g1id g2id g3id 3 cfgPi8 saZero hd (by omega)]
  simp only [Option.map_some']
  rw [hlen]

/-- C1 (amended): with a positive altitude and positive angular step, a
strictly negative outer radius yields exactly one waypoint, the
search-area center at mission altitude; an outer radius of exactly zero
yields two waypoints (the center plus the θ = 0 spiral point). -/
theorem C1_center_only (g1 : Geo3) (g2 g3 : Geo6) (configs : Configs) (sa : SearchArea)
    (halt : 0 < configs.altitude) (hd : 0 < configs.d_theta_rad) :
    (sa.rad2 < 0 →
      (generateWaypoints g1 g2 g3 configs sa).2 =
        [(sa.center.1, sa.center.2, configs.altitude)] ∧
      (generateWaypoints g1 g2 g3 configs sa).1.length = 1) ∧
    (sa.rad2 = 0 → (generateWaypoints g1 g2 g3 configs sa).2.length = 2) := by
  have hb := coilSpacing_pos configs.altitude halt
  constructor
  · intro hneg
    have hm : sa.rad2 / coilSpacing configs.altitude < 0 := div_neg_of_neg_of_pos hneg hb
    have hlc : loopCount (sa.rad2 / coilSpacing configs.altitude) configs.d_theta_rad = 0 := by
      unfold loopCount
      rw [if_pos hm]
    simp only [generateWaypoints, hlc, List.range_zero, List.map_nil]
    exact ⟨trivial, rfl⟩
  · intro hz
    have hlc : loopCount (sa.rad2 / coilSpacing configs.altitude) configs.d_theta_rad = 1 := by
      rw [hz, zero_div]
      unfold loopCount
      rw [if_neg (lt_irrefl 0), zero_div, Int.floor_zero]
      rfl
    simp only [generateWaypoints, hlc, List.length_cons, List.length_map, List.length_range]

/-- C1 witness: at altitude 10, angular step π/8 and `rad2 = -1` the
planner returns exactly the single center waypoint. -/
theorem C1_witness :
    (generateWaypoints g1id g2id g3id cfgPi8 saNeg).2 =
      [(saNeg.center.1, saNeg.center.2, cfgPi8.altitude)] ∧
    (generateWaypoints g1id g2id g3id cfgPi8 saNeg).1.length = 1 :=
  (C1_center_only g1id g2id g3id cfgPi8 saNeg
    (by show (0:ℝ) < 10; norm_num)
    (by show (0:ℝ) < Real.pi / 8; positivity)).1
    (by show (-1 : ℝ) < 0; norm_num)

/-! ### Claim C2 -/

/-- C2: the code computes the footprint `boxH` by DIVIDING by
`tan(fovH/2)` (`2 * altitude / tan(fovH/2)`, source line 90), whereas
the claimed formula multiplies; at altitude 10 the two differ.  The
derivation of the coil spacing from `boxH` does match the claim. -/
theorem C2_footprint_formula :
    boxH 10 = 2 * 10 / Real.tan (fovH / 2) ∧
    boxH 10 ≠ 2 * 10 * Real.tan (fovH / 2) ∧
    boxV 10 = 2 * 10 / Real.tan (fovV / 2) ∧
    coilSpacing 10 = (0.75 * boxH 10) / (2 * Real.pi) := by
  refine ⟨rfl, ?_, rfl, rfl⟩
  have h1 := tan_fovH_half_pos
  have h2 := tan_fovH_half_lt_one
  unfold boxH
  intro heq
  rw [div_eq_iff (ne_of_gt h1)] at heq
  nlinarith [mul_pos (sub_pos.mpr h2) (show (0:ℝ) < 1 + Real.tan (fovH / 2) by linarith)]

/-! ### Claim C3 -/

/-- C3: with `d_theta_rad = 0` (and `rad2 = 0`, so `maxTheta = 0`), the
`while theta <= maxTheta` loop never exits: the step-indexed semantics
of `generateWaypoints` yields no result no matter how many steps are
allowed.  There is no invalid-configuration check anywhere in the
function. -/
theorem C3_nontermination (g1 : Geo3) (g2 g3 : Geo6) (fuel : ℕ) :
    generateWaypointsFuel g1 g2 g3 fuel cfgStuck saZero = none := by
  simp only [generateWaypointsFuel]
  rw [spiralAux_none cfgStuck.d_theta_rad (saZero.rad2 / coilSpacing cfgStuck.altitude) _
    (le_of_eq (show cfgStuck.d_theta_rad = 0 from rfl)) fuel 0
    (by rw [show saZero.rad2 = (0:ℝ) from rfl, zero_div])]
  rfl

/-! ### Claim C7 -/

/-- C7: for a positive outer radius `R`, positive altitude and positive
angular step, the returned trajectory has exactly
`⌊maxTheta / angularStep⌋ + 2` waypoints, where
`maxTheta = R / b` and `b` is the computed coil spacing; the NED and LLA
lists have the same length. -/
theorem C7_trajectory_length (g1 : Geo3) (g2 g3 : Geo6) (configs : Configs) (sa : SearchArea)
    (halt : 0 < configs.altitude) (hR : 0 < sa.rad2) (hd : 0 < configs.d_theta_rad) :
    ((generateWaypoints g1 g2 g3 configs sa).2.length : ℤ) =
      ⌊sa.rad2 / coilSpacing configs.altitude / configs.d_theta_rad⌋ + 2 ∧
    (generateWaypoints g1 g2 g3 configs sa).1.length =
      (generateWaypoints g1 g2 g3 configs sa).2.length := by
  have hb := coilSpacing_pos configs.altitude halt
  have hm : 0 ≤ sa.rad2 / coilSpacing configs.altitude := (div_pos hR hb).le
  have hfl : 0 ≤ ⌊sa.rad2 / coilSpacing configs.altitude / configs.d_theta_rad⌋ :=
    Int.floor_nonneg.mpr (div_nonneg hm hd.le)
  have hlc : loopCount (sa.rad2 / coilSpacing configs.altitude) configs.d_theta_rad =
      (⌊sa.rad2 / coilSpacing configs.altitude / configs.d_theta_rad⌋).toNat + 1 := by
    unfold loopCount
    rw [if_neg (not_lt.mpr hm)]
  constructor
  · simp only [generateWaypoints, hlc, List.length_cons, List.length_map, List.length_range]
    push_cast [Int.toNat_of_nonneg hfl]
    ring
  · simp only [generateWaypoints, List.length_cons, List.length_map]

/-- C7 witness: concrete instance at altitude 10, `rad2 = 30`,
angular step π/8. -/
theorem C7_witness :
    ((generateWaypoints g1id g2id g3id cfgPi8 saR30).2.length : ℤ) =
      ⌊saR30.rad2 / coilSpacing cfgPi8.altitude / cfgPi8.d_theta_rad⌋ + 2 ∧
    (generateWaypoints g1id g2id g3id cfgPi8 saR30).1.length =
      (generateWaypoints g1id g2id g3id cfgPi8 saR30).2.length :=
  C7_trajectory_length g1id g2id g3id cfgPi8 saR30
    (by show (0:ℝ) < 10; norm_num)
    (by show (0:ℝ) < 30; norm_num)
    (by show (0:ℝ) < Real.pi / 8; positivity)

/-! ### Claim C9 -/

/-- C9: whenever the step-indexed `generateWaypoints` terminates, the NED
and LLA lists have equal length, contain at least one element, and the
first LLA entry is the search-area center at the configured altitude. -/
theorem C9_output_invariant (g1 : Geo3) (g2 g3 : Geo6) (fuel : ℕ)
    (configs : Configs) (sa : SearchArea) (ws : List Point3 × List Point3)
    (h : generateWaypointsFuel g1 g2 g3 fuel configs sa = some ws) :
    ws.1.length = ws.2.length ∧ 1 ≤ ws.2.length ∧
    ws.2.head? = some (sa.center.1, sa.center.2, configs.altitude) := by
  simp only [generateWaypointsFuel] at h
  obtain ⟨pts, hpts, hws⟩ := Option.map_eq_some'.mp h
  subst hws
  refine ⟨?_, ?_, rfl⟩ <;> simp [List.length_map]

/-- C9 witness: concrete terminating instance (altitude 10, `rad2 = -1`,
angular step π/8, one fuel step). -/
theorem C9_witness :
    (generateWaypoints g1id g2id g3id cfgPi8 saNeg).1.length =
      (generateWaypoints g1id g2id g3id cfgPi8 saNeg).2.length ∧
    1 ≤ (generateWaypoints g1id g2id g3id cfgPi8 saNeg).2.length ∧
    (generateWaypoints g1id g2id g3id cfgPi8 saNeg).2.head? =
      some (saNeg.center.1, saNeg.center.2, cfgPi8.altitude) :=
  C9_output_invariant g1id g2id g3id 1 cfgPi8 saNeg _
    (generateWaypointsFuel_eq g1id g2id g3id 1 cfgPi8 saNeg
      (by show (0:ℝ) < Real.pi / 8; positivity)
      (by
        have hb : (0:ℝ) < coilSpacing cfgPi8.altitude :=
          coilSpacing_pos _ (by show (0:ℝ) < 10; norm_num)
        have hm : saNeg.rad2 / coilSpacing cfgPi8.altitude < 0 :=
          div_neg_of_neg_of_pos (by show (-1:ℝ) < 0; norm_num) hb
        unfold loopCount
        rw [if_pos hm]
        omega))

/-! ### Claim C10 -/

/-- C10: the uploaded command list consists of a takeoff command whose
altitude is hardcoded to 10, one navigation command per waypoint plus a
duplicated final waypoint, each using only the latitude and longitude of
the waypoint with altitude hardcoded to 12; changing the altitude
component of every waypoint leaves the uploaded list unchanged. -/
theorem C10_hardcoded_altitudes (lla : List Point3) (h : lla ≠ []) :
    quick_scan_adds_mission lla =
      some ([takeoffCommand]
        ++ lla.map (fun point => navCommand point.1 point.2.1)
        ++ [navCommand (lla.getLast h).1 (lla.getLast h).2.1]) ∧
    takeoffCommand.z = 10 ∧ takeoffCommand.command = MAV_CMD_NAV_TAKEOFF ∧
    (∀ la lo, (navCommand la lo).z = 12 ∧ (navCommand la lo).command = MAV_CMD_NAV_WAYPOINT) ∧
    (∀ f : Point3 → ℝ,
      quick_scan_adds_mission (lla.map (fun p => (p.1, p.2.1, f p))) =
        quick_scan_adds_mission lla) := by
  refine ⟨?_, rfl, rfl, fun la lo => ⟨rfl, rfl⟩, ?_⟩
  · unfold quick_scan_adds_mission
    rw [List.getLast?_eq_getLast lla h]
  · intro f
    unfold quick_scan_adds_mission
    rw [List.getLast?_map]
    cases hl : lla.getLast? with
    | none => rfl
    | some lastP => simp [List.map_map, Function.comp_def]

/-- C10 witness: concrete single-waypoint list. -/
theorem C10_witness :
    quick_scan_adds_mission [((1:ℝ), (2:ℝ), (3:ℝ))] =
      some ([takeoffCommand]
        ++ [((1:ℝ), (2:ℝ), (3:ℝ))].map (fun point => navCommand point.1 point.2.1)
        ++ [navCommand ([((1:ℝ), (2:ℝ), (3:ℝ))].getLast (by simp)).1
              ([((1:ℝ), (2:ℝ), (3:ℝ))].getLast (by simp)).2.1]) :=
  (C10_hardcoded_altitudes [((1:ℝ), (2:ℝ), (3:ℝ))] (by simp)).1

/-! ### Claim C4 -/

/-- C4 counterexample: with flight mode `"GUIDED"` the run does raise the
fatal configuration error, but the command-list upload and the takeoff
command are already in the event trace when it is raised, contradicting
the claim that the abort happens before any upload and before takeoff. -/
theorem C4_counterexample :
    runEvents (quick_scan_autonomy "GUIDED" 10 idSeq 0 constFalse constFalse 1) =
      some [Event.uploadMission, Event.takeoffCmd "GUIDED" 10, Event.setMode "GUIDED"] ∧
    runExc (quick_scan_autonomy "GUIDED" 10 idSeq 0 constFalse constFalse 1) =
      some (some "Guided mode not supported") := by
  constructor <;> rfl

/-- C4 (amended): a flight mode other than `"AUTO"` makes the run abort
with the fatal error `"Guided mode not supported"`, but only after the
command list has been uploaded, takeoff has been commanded and the
vehicle mode has been set; the monitor loop is never entered and landing
is never commanded. -/
theorem C4_nonauto_aborts (fm : String) (hfm : fm ≠ "AUTO") (altitude : ℝ)
    (next : ℕ → ℕ) (count : ℕ) (pausef stopf : ℕ → Bool) (fuel : ℕ) :
    quick_scan_autonomy fm altitude next count pausef stopf fuel =
      some ⟨[Event.uploadMission, Event.takeoffCmd fm altitude, Event.setMode fm],
        some "Guided mode not supported", none⟩ := by
  simp only [quick_scan_autonomy, if_neg hfm]

/-- C4 witness: concrete instance with flight mode `"GUIDED"`. -/
theorem C4_witness :
    quick_scan_autonomy "GUIDED" 10 idSeq 0 constFalse constFalse 1 =
      some ⟨[Event.uploadMission, Event.takeoffCmd "GUIDED" 10, Event.setMode "GUIDED"],
        some "Guided mode not supported", none⟩ :=
  C4_nonauto_aborts "GUIDED" (by decide) 10 idSeq 0 constFalse constFalse 1

/-! ### Claim C5 -/

/-- C5 counterexample: a run in which the pause flag is true on the
(executed) first loop iteration.  The loop stores `"HOVER"` in the local
configuration entry, but no `"HOVER"` flight-mode request is ever made
on the vehicle: the event trace contains only the pre-loop
`setMode "AUTO"`, a telemetry print, and the landing. -/
theorem C5_counterexample :
    runEvents (quick_scan_autonomy "AUTO" 10 idSeq 1 constTrue constFalse 2) =
      some [Event.uploadMission, Event.takeoffCmd "AUTO" 10, Event.setMode "AUTO",
        Event.printLocation, Event.landCmd] ∧
    runHoverRequested (quick_scan_autonomy "AUTO" 10 idSeq 1 constTrue constFalse 2) =
      some false ∧
    constTrue 0 = true ∧
    runFinalCfgMode (quick_scan_autonomy "AUTO" 10 idSeq 1 constTrue constFalse 2) =
      some (some "HOVER") := by
  refine ⟨rfl, rfl, rfl, rfl⟩

/-- C5 (amended): on every executed iteration of the monitor loop the
local configuration flight-mode entry is assigned `"HOVER"` when the
pause flag is sampled true and `"AUTO"` otherwise, but no flight-mode
request is made on the vehicle inside the loop: the in-loop vehicle
interactions are telemetry prints only. -/
theorem C5_mode_writes (next : ℕ → ℕ) (count : ℕ) (pausef stopf : ℕ → Bool)
    (i0 fuel : ℕ)
    (hmin : ∀ j, j < i0 → next j ≠ count ∧ stopf j = false)
    (hexit : next i0 = count ∨ stopf i0 = true)
    (hfuel : i0 < fuel) :
    monitorLoop next count pausef stopf "AUTO" fuel 0 =
      some (expectedLoop next count pausef "AUTO" 0 i0) ∧
    (expectedLoop next count pausef "AUTO" 0 i0).modeWrites =
      (List.range' 0 i0).map (modeOf pausef) ++
        (if (expectedLoop next count pausef "AUTO" 0 i0).stopped
          then [modeOf pausef i0] else []) ∧
    (∀ i, modeOf pausef i = if pausef i then "HOVER" else "AUTO") ∧
    (expectedLoop next count pausef "AUTO" 0 i0).events.any isHoverRequest = false ∧
    (expectedLoop next count pausef "AUTO" 0 i0).events =
      List.replicate i0 Event.printLocation := by
  have hml := monitorLoop_eq next count pausef stopf i0 hexit fuel 0 "AUTO"
    (Nat.zero_le _) (fun j _ hj => hmin j hj) (by omega)
  have hev : (expectedLoop next count pausef "AUTO" 0 i0).events =
      List.replicate i0 Event.printLocation := by
    by_cases hc : next i0 = count <;> simp [expectedLoop, hc, Nat.sub_zero]
  have hany : ∀ n, (List.replicate n Event.printLocation).any isHoverRequest = false := by
    intro n
    induction n with
    | zero => rfl
    | succ n ihn => simp [List.replicate_succ, List.any_cons, isHoverRequest, ihn]
  refine ⟨hml, ?_, fun i => rfl, ?_, hev⟩
  · by_cases hc : next i0 = count <;>
      simp [expectedLoop, hc, Nat.sub_zero]
  · rw [hev]
    exact hany i0

/-- C5 witness: concrete instance (pause always set, one executed
iteration, normal exit at iteration 1). -/
theorem C5_witness :
    monitorLoop idSeq 1 constTrue constFalse "AUTO" 2 0 =
      some (expectedLoop idSeq 1 constTrue "AUTO" 0 1) ∧
    (expectedLoop idSeq 1 constTrue "AUTO" 0 1).modeWrites =
      (List.range' 0 1).map (modeOf constTrue) ++
        (if (expectedLoop idSeq 1 constTrue "AUTO" 0 1).stopped
          then [modeOf constTrue 1] else []) ∧
    (∀ i, modeOf constTrue i = if constTrue i then "HOVER" else "AUTO") ∧
    (expectedLoop idSeq 1 constTrue "AUTO" 0 1).events.any isHoverRequest = false ∧
    (expectedLoop idSeq 1 constTrue "AUTO" 0 1).events =
      List.replicate 1 Event.printLocation :=
  C5_mode_writes idSeq 1 constTrue constFalse 1 2
    (by decide) (Or.inl rfl) (by decide)

/-! ### Claim C8 -/

/-- C8: in AUTO mode the monitor loop exits exactly at the first
iteration `i0` at which the next-command index of the vehicle equals the
command count or the stop flag is sampled true (the index test, checked
first, wins a tie), and the run then commands landing exactly once,
after the loop. -/
theorem C8_loop_exit_land_once (altitude : ℝ) (next : ℕ → ℕ) (count : ℕ)
    (pausef stopf : ℕ → Bool) (i0 fuel : ℕ)
    (hmin : ∀ j, j < i0 → next j ≠ count ∧ stopf j = false)
    (hexit : next i0 = count ∨ stopf i0 = true)
    (hfuel : i0 < fuel) :
    monitorLoop next count pausef stopf "AUTO" fuel 0 =
      some (expectedLoop next count pausef "AUTO" 0 i0) ∧
    (expectedLoop next count pausef "AUTO" 0 i0).exitIter = i0 ∧
    ((expectedLoop next count pausef "AUTO" 0 i0).stopped = true ↔ ¬ next i0 = count) ∧
    quick_scan_autonomy "AUTO" altitude next count pausef stopf fuel =
      some ⟨[Event.uploadMission, Event.takeoffCmd "AUTO" altitude, Event.setMode "AUTO"]
          ++ (expectedLoop next count pausef "AUTO" 0 i0).events ++ [Event.landCmd],
        none, some (expectedLoop next count pausef "AUTO" 0 i0)⟩ ∧
    ((([Event.uploadMission, Event.takeoffCmd "AUTO" altitude, Event.setMode "AUTO"]
        ++ (expectedLoop next count pausef "AUTO" 0 i0).events
        ++ [Event.landCmd]).filter isLand).length = 1) := by
  have hml := monitorLoop_eq next count pausef stopf i0 hexit fuel 0 "AUTO"
    (Nat.zero_le _) (fun j _ hj => hmin j hj) (by omega)
  have hev : (expectedLoop next count pausef "AUTO" 0 i0).events =
      List.replicate i0 Event.printLocation := by
    by_cases hc : next i0 = count <;> simp [expectedLoop, hc, Nat.sub_zero]
  have hrep : ∀ n, (List.replicate n Event.printLocation).filter isLand = [] := by
    intro n
    induction n with
    | zero => rfl
    | succ n ihn => simp [List.replicate_succ, List.filter_cons, isLand, ihn]
  refine ⟨hml, ?_, ?_, ?_, ?_⟩
  · by_cases hc : next i0 = count <;> simp [expectedLoop, hc]
  · by_cases hc : next i0 = count <;> simp [expectedLoop, hc]
  · simp only [quick_scan_autonomy, hml, eq_self_iff_true, if_true]
  · simp [List.filter_append, List.filter_cons, isLand, hev, hrep]

/-- C8 witness: the vehicle advances one command per tick, command count
2, no pause and no stop: the loop exits at iteration 2 by normal
completion and lands once. -/
theorem C8_witness :
    monitorLoop idSeq 2 constFalse constFalse "AUTO" 3 0 =
      some (expectedLoop idSeq 2 constFalse "AUTO" 0 2) ∧
    (expectedLoop idSeq 2 constFalse "AUTO" 0 2).exitIter = 2 ∧
    ((expectedLoop idSeq 2 constFalse "AUTO" 0 2).stopped = true ↔ ¬ idSeq 2 = 2) ∧
    quick_scan_autonomy "AUTO" 10 idSeq 2 constFalse constFalse 3 =
      some ⟨[Event.uploadMission, Event.takeoffCmd "AUTO" 10, Event.setMode "AUTO"]
          ++ (expectedLoop idSeq 2 constFalse "AUTO" 0 2).events ++ [Event.landCmd],
        none, some (expectedLoop idSeq 2 constFalse "AUTO" 0 2)⟩ ∧
    ((([Event.uploadMission, Event.takeoffCmd "AUTO" 10, Event.setMode "AUTO"]
        ++ (expectedLoop idSeq 2 constFalse "AUTO" 0 2).events
        ++ [Event.landCmd]).filter isLand).length = 1) :=
  C8_loop_exit_land_once 10 idSeq 2 constFalse constFalse 2 3
    (by decide) (Or.inl rfl) (by decide)

/-! ### Claim C6 -/

/-- C6: for every well-formed inbound message with a required field
absent at any nesting level (`type`; for a start message `searchArea`,
or `center`, `rad1`, `rad2` inside it), the callback emits exactly one
error reply naming the (first) missing field and returns the mission
state completely unchanged: no search area stored and no flag set. -/
theorem C6_missing_field (st : MState) (msg : List (String × JVal)) :
    (List.lookup "type" msg = none →
      xbee_callback msg st = .ret st [.bad "Missing \x27type\x27 key"]) ∧
    (List.lookup "type" msg = some (JVal.str "start") →
      (List.lookup "searchArea" msg = none →
        xbee_callback msg st = .ret st [.bad "Missing \x27searchArea\x27 key"]) ∧
      (∀ area, List.lookup "searchArea" msg = some (JVal.obj area) →
        (List.lookup "center" area = none →
          xbee_callback msg st = .ret st [.bad "Missing \x27center\x27 key"]) ∧
        (∀ c, List.lookup "center" area = some c →
          List.lookup "rad1" area = none →
          xbee_callback msg st = .ret st [.bad "Missing \x27rad1\x27 key"]) ∧
        (∀ c r1, List.lookup "center" area = some c →
          List.lookup "rad1" area = some r1 →
          List.lookup "rad2" area = none →
          xbee_callback msg st = .ret st [.bad "Missing \x27rad2\x27 key"]))) := by
  refine ⟨fun h1 => ?_,
    fun h1 => ⟨fun h2 => ?_,
      fun area h2 => ⟨fun h3 => ?_, fun c h3 h4 => ?_, fun c r1 h3 h4 h5 => ?_⟩⟩⟩
  · simp only [xbee_callback, h1]
  · simp only [xbee_callback, h1, h2]
  · simp only [xbee_callback, h1, h2, h3]
  · simp only [xbee_callback, h1, h2, h3, h4]
  · simp only [xbee_callback, h1, h2, h3, h4, h5]

/-- C6 witness: the start message `{"type": "start"}` with no
`searchArea` field leaves the initial state untouched and yields exactly
one error reply naming `searchArea`. -/
theorem C6_witness :
    xbee_callback msg0 st0 = .ret st0 [.bad "Missing \x27searchArea\x27 key"] :=
  ((C6_missing_field st0 msg0).2 rfl).1 rfl

end VTOL
